import Mathlib

/-
Shallow embedding of src/main.rs of the project-generator CLI.

The program dispatches one of four scaffold strategies (Symfony/PHP,
Flask/py-micro, Django/py-full, Rust/sys-package).  External facts —
which executables resolve on the search path, the answers returned by
the interactive confirmation, the exit status of each spawned
subprocess, and which filesystem operations fail — are collected in an
environment record; each strategy is a pure function from that
environment to its result (the Rust `Result<()>`, enriched with the
outcome classification of the spec) together with the ordered trace of
the effects it performed.
-/

namespace PG

/-- The four subcommands of the CLI (main.rs lines 18-32); each carries its
positional project-name argument. -/
inductive Commands
  | symfony (project : String)
  | flask (project : String)
  | django (project : String)
  | rust (project : String)
deriving DecidableEq

/-- Result of spawning a subprocess: it ran and reported success or failure,
or the spawn itself failed (the `Err` case of Rust's `status()`). -/
inductive SpawnResult
  | ran (success : Bool)
  | spawnFailed
deriving DecidableEq

/-- Observable effects a strategy performs, in order: a successful directory
creation, a successful file write, a spawned subprocess (with its result),
or an interactive confirmation shown to the user. -/
inductive Effect
  | createDir (path : String)
  | writeFile (path : String) (content : String)
  | runProc (cmd : String) (args : List String) (result : SpawnResult)
  | interact (question : String)
deriving DecidableEq

/-- Error taxonomy of the spec, each constructor carrying the message built
at the corresponding `anyhow!` site in main.rs. -/
inductive GenError
  | toolExecutionError (msg : String)
  | spawnError (cmd : String)
  | ioError (msg : String)
  | missingDependency (msg : String)
deriving DecidableEq

/-- The spec's tri-state `ExecutionOutcome` for the successful-return paths
of a strategy. -/
inductive Outcome
  | generatedViaTool
  | generatedViaFallback
  | aborted
deriving DecidableEq

/-- Environment: all external facts a run of the program consults.
`toolExists c` models `which(c).is_ok()`; `interactAnswers k` is the value
of the k-th `Confirm::interact()` call in the run (`none` = the interaction
itself errored, e.g. no usable terminal); `runStatus c args` is the result
of spawning generator tool `c` with `args`; `venvStatus` is the result of
the `python -m venv` provisioning call; `fsFails p` says whether the
filesystem operation on path `p` fails. -/
structure Env where
  toolExists : String → Bool
  interactAnswers : Nat → Option Bool
  runStatus : String → List String → SpawnResult
  venvStatus : SpawnResult
  fsFails : String → Bool

/-- command_exists (main.rs lines 45-47): search-path probe for an
executable. -/
def command_exists (env : Env) (command : String) : Bool :=
  env.toolExists command

/-- prompt_yes_no (main.rs lines 49-59).  With `no_prompt` set it returns
`true` without any interaction; otherwise it performs the k-th interaction
and an interaction error defaults to `false` (`unwrap_or(false)`).
Returns (answer, effects, next interaction index). -/
def prompt_yes_no (question : String) (no_prompt : Bool)
    (answers : Nat → Option Bool) (k : Nat) : Bool × List Effect × Nat :=
  if no_prompt then (true, [], k)
  else ((answers k).getD false, [Effect.interact question], k + 1)

/-- Fail-fast creation of a list of directories (`fs::create_dir_all` loop):
stops at the first failing path with an `IoError` naming it; the trace
records the directories created before the failure. -/
def createDirs (fsFails : String → Bool) : List String → Except GenError Unit × List Effect
  | [] => (Except.ok (), [])
  | p :: rest =>
    if fsFails p then
      (Except.error (GenError.ioError ("Failed to create directory " ++ p)), [])
    else
      let r := createDirs fsFails rest
      (r.1, Effect.createDir p :: r.2)

/-- Fail-fast writing of a list of (path, content) files (`fs::write`):
stops at the first failing path with an `IoError` naming it. -/
def writeFiles (fsFails : String → Bool) : List (String × String) → Except GenError Unit × List Effect
  | [] => (Except.ok (), [])
  | f :: rest =>
    if fsFails f.1 then
      (Except.error (GenError.ioError ("Failed to create file " ++ f.1)), [])
    else
      let r := writeFiles fsFails rest
      (r.1, Effect.writeFile f.1 f.2 :: r.2)

/-- Content of the fallback Symfony front controller (main.rs line 82). -/
def symfonyIndexContent : String :=
  "<?php\n// Symfony front controller placeholder\n"

/-- Content of the fallback Flask application file (main.rs lines 108-118). -/
def flaskAppContent : String :=
  "from flask import Flask\n\napp = Flask(__name__)\n\n@app.route(\x27/\x27)\ndef hello():\n    return \"Here we go again!\"\n\nif __name__ == \x27__main__\x27:\n    app.run(debug=True)\n"

/-- Content of the fallback Django manage.py (main.rs lines 163-174). -/
def djangoManageContent : String :=
  "#!/usr/bin/env python\nimport os\nimport sys\n\nif __name__ == \x27__main__\x27:\n    os.environ.setdefault(\x27DJANGO_SETTINGS_MODULE\x27, \x27project.settings\x27)\n    try:\n        from django.core.management import execute_from_command_line\n    except ImportError as exc:\n        raise ImportError(\"Couldn\x27t import Django.\") from exc\n    execute_from_command_line(sys.argv)\n"

/-- Content of the fallback Django settings.py (main.rs lines 178-196). -/
def djangoSettingsContent : String :=
  "SECRET_KEY = \x27your-secret-key\x27\nDEBUG = True\nALLOWED_HOSTS = []\nINSTALLED_APPS = [\n    \x27django.contrib.admin\x27,\n    \x27django.contrib.auth\x27,\n    \x27django.contrib.contenttypes\x27,\n    \x27django.contrib.sessions\x27,\n    \x27django.contrib.messages\x27,\n    \x27django.contrib.staticfiles\x27,\n    \x27app\x27,\n]\nMIDDLEWARE = [\n    \x27django.middleware.security.SecurityMiddleware\x27,\n    \x27django.contrib.sessions.middleware.SessionMiddleware\x27,\n    \x27django.middleware.common.CommonMiddleware\x27,\n]\nROOT_URLCONF = \x27project.urls\x27\n"

/-- The spec's pure scaffold builder `build_scaffold(kind, name)`: the
ordered directory list and ordered (path, content) file list of the
fallback scaffold of each kind, exactly the literals of main.rs
(lines 75-83 Symfony, 101-120 Flask, 156-198 Django; the Rust kind has no
fallback, so its scaffold is empty). -/
def build_scaffold : Commands → List String × List (String × String)
  | Commands.symfony project =>
    (["config", "public", "src", "templates", "var", "vendor"].map
        (fun d => project ++ "/" ++ d),
     [(project ++ "/public/index.php", symfonyIndexContent)])
  | Commands.flask project =>
    (["app", "venv", "static", "templates"].map (fun d => project ++ "/" ++ d),
     [(project ++ "/app/app.py", flaskAppContent)])
  | Commands.django project =>
    (["project", "app", "venv"].map (fun d => project ++ "/" ++ d),
     [(project ++ "/manage.py", djangoManageContent),
      (project ++ "/project/settings.py", djangoSettingsContent)])
  | Commands.rust _ => ([], [])

/-- The effect trace a scaffold produces when every filesystem operation
succeeds: all directories, then all files. -/
def materialize (sc : List String × List (String × String)) : List Effect :=
  sc.1.map Effect.createDir ++ sc.2.map (fun f => Effect.writeFile f.1 f.2)

/-- Materialize a scaffold against the filesystem: create all directories
(fail-fast), then write all files (fail-fast), as the fallback branches of
main.rs do. -/
def materializeFs (fsFails : String → Bool) (sc : List String × List (String × String)) :
    Except GenError Unit × List Effect :=
  let cd := createDirs fsFails sc.1
  match cd.1 with
  | Except.error e => (Except.error e, cd.2)
  | Except.ok _ =>
    let wf := writeFiles fsFails sc.2
    (wf.1, cd.2 ++ wf.2)

/-- create_symfony_project (main.rs lines 61-90).  Tool present: run
`symfony new <project>`; non-zero exit is a hard `ToolExecutionError`.
Tool absent: confirm the fallback; confirmed → materialize the scaffold;
declined → print guidance and return `Ok` (soft abort). -/
def create_symfony_project (project : String) (no_prompt : Bool) (env : Env) :
    Except GenError Outcome × List Effect :=
  if command_exists env "symfony" then
    let st := env.runStatus "symfony" ["new", project]
    let eff := [Effect.runProc "symfony" ["new", project] st]
    match st with
    | SpawnResult.spawnFailed => (Except.error (GenError.spawnError "symfony"), eff)
    | SpawnResult.ran true => (Except.ok Outcome.generatedViaTool, eff)
    | SpawnResult.ran false =>
      (Except.error
        (GenError.toolExecutionError "Failed to create Symfony project with Symfony CLI."), eff)
  else
    let pr := prompt_yes_no
      "Symfony CLI is missing. Create directory structure manually as fallback?"
      no_prompt env.interactAnswers 0
    if pr.1 then
      let m := materializeFs env.fsFails (build_scaffold (Commands.symfony project))
      match m.1 with
      | Except.error e => (Except.error e, pr.2.1 ++ m.2)
      | Except.ok _ => (Except.ok Outcome.generatedViaFallback, pr.2.1 ++ m.2)
    else
      (Except.ok Outcome.aborted, pr.2.1)

/-- The `python -m venv <project>/venv` provisioning call shared by the two
Python strategies (main.rs lines 122-127 and 204-209): the interpreter is
`python` when resolvable, otherwise `python3`. -/
def venvInvocation (project : String) (env : Env) : Effect :=
  Effect.runProc (if command_exists env "python" then "python" else "python3")
    ["-m", "venv", project ++ "/venv"] env.venvStatus

/-- Trace of the reaction to the venv provisioning result in
create_flask_project (main.rs lines 129-137): on success nothing further
happens; on failure or spawn error the retry prompt is shown. -/
def flaskRetryPrompt (no_prompt : Bool) (env : Env) (k0 : Nat) : List Effect :=
  match env.venvStatus with
  | SpawnResult.ran true => []
  | _ => (prompt_yes_no "Would you like to try again manually?" no_prompt
      env.interactAnswers k0).2.1

/-- Scaffold-and-provision phase of create_flask_project (main.rs lines
100-139), entered after the optional Python-missing prompt: materialize the
scaffold, run the venv provisioning, and on provisioning failure show the
retry prompt; the return value is `Ok` regardless of provisioning. -/
def flaskScaffold (project : String) (no_prompt : Bool) (env : Env)
    (eff0 : List Effect) (k0 : Nat) : Except GenError Outcome × List Effect :=
  let m := materializeFs env.fsFails (build_scaffold (Commands.flask project))
  match m.1 with
  | Except.error e => (Except.error e, eff0 ++ m.2)
  | Except.ok _ =>
    (Except.ok Outcome.generatedViaFallback,
      eff0 ++ m.2 ++ venvInvocation project env :: flaskRetryPrompt no_prompt env k0)

/-- create_flask_project (main.rs lines 92-140).  If neither `python` nor
`python3` resolves, ask "Abort and install Python first?"; a `false` answer
returns the `missingDependency` error, otherwise the scaffold phase runs. -/
def create_flask_project (project : String) (no_prompt : Bool) (env : Env) :
    Except GenError Outcome × List Effect :=
  if !command_exists env "python" && !command_exists env "python3" then
    let pr := prompt_yes_no "Abort and install Python first?" no_prompt env.interactAnswers 0
    if !pr.1 then
      (Except.error (GenError.missingDependency "Python is required for Flask projects."),
        pr.2.1)
    else
      flaskScaffold project no_prompt env pr.2.1 pr.2.2
  else
    flaskScaffold project no_prompt env [] 0

/-- create_django_project (main.rs lines 142-215).  Tool present: run
`django-admin startproject <project> <project>`; non-zero exit is a hard
`ToolExecutionError` returned before the venv step.  Tool absent: confirm
the fallback; confirmed → materialize the scaffold; declined → print
guidance.  Every non-error exit (tool success, fallback success, decline)
then performs the venv provisioning call and returns `Ok`. -/
def create_django_project (project : String) (no_prompt : Bool) (env : Env) :
    Except GenError Outcome × List Effect :=
  if command_exists env "django-admin" then
    let st := env.runStatus "django-admin" ["startproject", project, project]
    let eff := [Effect.runProc "django-admin" ["startproject", project, project] st]
    match st with
    | SpawnResult.spawnFailed => (Except.error (GenError.spawnError "django-admin"), eff)
    | SpawnResult.ran false =>
      (Except.error
        (GenError.toolExecutionError "Failed to create Django project with django-admin."), eff)
    | SpawnResult.ran true =>
      (Except.ok Outcome.generatedViaTool, eff ++ [venvInvocation project env])
  else
    let pr := prompt_yes_no
      "django-admin is missing. Create basic scaffold manually as fallback?"
      no_prompt env.interactAnswers 0
    if pr.1 then
      let m := materializeFs env.fsFails (build_scaffold (Commands.django project))
      match m.1 with
      | Except.error e => (Except.error e, pr.2.1 ++ m.2)
      | Except.ok _ =>
        (Except.ok Outcome.generatedViaFallback,
          pr.2.1 ++ m.2 ++ [venvInvocation project env])
    else
      (Except.ok Outcome.aborted, pr.2.1 ++ [venvInvocation project env])

/-- create_rust_project (main.rs lines 217-231).  `cargo` absent is an
immediate `missingDependency` error with install guidance (no prompt, no
fallback); otherwise `cargo new <project>` runs and a non-zero exit is a
hard `ToolExecutionError`. -/
def create_rust_project (project : String) (env : Env) :
    Except GenError Outcome × List Effect :=
  if !command_exists env "cargo" then
    (Except.error (GenError.missingDependency
      "Cargo was not found on your system. Please install Rust (and Cargo) from https://rustup.rs."),
      [])
  else
    let st := env.runStatus "cargo" ["new", project]
    let eff := [Effect.runProc "cargo" ["new", project] st]
    match st with
    | SpawnResult.spawnFailed => (Except.error (GenError.spawnError "cargo"), eff)
    | SpawnResult.ran true => (Except.ok Outcome.generatedViaTool, eff)
    | SpawnResult.ran false =>
      (Except.error (GenError.toolExecutionError "Failed to create Rust project using Cargo."), eff)

/-- main (main.rs lines 34-43): dispatch on the parsed subcommand, passing
the project name and the global `--no-prompt` flag through unchanged. -/
def runCommand (cmd : Commands) (no_prompt : Bool) (env : Env) :
    Except GenError Outcome × List Effect :=
  match cmd with
  | Commands.symfony project => create_symfony_project project no_prompt env
  | Commands.flask project => create_flask_project project no_prompt env
  | Commands.django project => create_django_project project no_prompt env
  | Commands.rust project => create_rust_project project env

/-- Process exit status: `main` returns `Result<()>`, so `Ok` exits 0 and
any propagated error exits 1. -/
def exitCode (r : Except GenError Outcome) : Nat :=
  match r with
  | Except.ok _ => 0
  | Except.error _ => 1

/-- The spec's `ExecutionOutcome` classification of a strategy result: an
`Ok` carries its outcome, a `missingDependency` error is the spec's soft
`Aborted` (clean abort with guidance), other errors are hard failures with
no outcome. -/
def specOutcome (r : Except GenError Outcome) : Option Outcome :=
  match r with
  | Except.ok o => some o
  | Except.error (GenError.missingDependency _) => some Outcome.aborted
  | Except.error _ => none

/-- Filesystem-mutating effects (directory creations and file writes) of a
trace, in order. -/
def fsEffects (es : List Effect) : List Effect :=
  es.filter fun e =>
    match e with
    | Effect.createDir _ => true
    | Effect.writeFile _ _ => true
    | _ => false

/-- Directories the program itself created, in order. -/
def dirsCreated (es : List Effect) : List String :=
  es.filterMap fun e =>
    match e with
    | Effect.createDir p => some p
    | _ => none

/-- Files the program itself wrote, with contents, in order. -/
def filesWritten (es : List Effect) : List (String × String) :=
  es.filterMap fun e =>
    match e with
    | Effect.writeFile p c => some (p, c)
    | _ => none

/-- Questions for which an interactive confirmation was actually shown. -/
def interactions (es : List Effect) : List String :=
  es.filterMap fun e =>
    match e with
    | Effect.interact q => some q
    | _ => none

/-- Directories created by spawned subprocesses rather than by the program:
a successful `<interpreter> -m venv <dir>` invocation creates `<dir>`
(the provisioning of an isolated environment inside the project directory,
spec section 4.4). -/
def subprocessDirs (es : List Effect) : List String :=
  es.filterMap fun e =>
    match e with
    | Effect.runProc _ ["-m", "venv", d] (SpawnResult.ran true) => some d
    | _ => none

/-- `sub` occurs as a substring of `s`. -/
def hasSub (s sub : String) : Prop :=
  ∃ a b, s = a ++ sub ++ b

/-- The condition under which a run of the given kind takes the fallback
path: the probed tool is absent and the confirmation yields `true` (for the
pure-fallback py-micro kind, that the run is not aborted at the interpreter
prompt; for the fallback-less sys-package kind, that the tool is absent —
its fallback scaffold is empty). -/
def fallbackCond : Commands → Bool → Env → Prop
  | Commands.symfony _, np, env =>
    env.toolExists "symfony" = false ∧
      (np = true ∨ (env.interactAnswers 0).getD false = true)
  | Commands.flask _, np, env =>
    env.toolExists "python" = true ∨ env.toolExists "python3" = true ∨
      np = true ∨ (env.interactAnswers 0).getD false = true
  | Commands.django _, np, env =>
    env.toolExists "django-admin" = false ∧
      (np = true ∨ (env.interactAnswers 0).getD false = true)
  | Commands.rust _, _, env => env.toolExists "cargo" = false

/-! Concrete environments used as inputs of counterexamples and witnesses. -/

/-- Environment where no executable resolves, every interaction answers
`false`, every spawn fails, and the filesystem always succeeds. -/
def envNoTools : Env :=
  ⟨fun _ => false, fun _ => some false, fun _ _ => SpawnResult.spawnFailed,
   SpawnResult.spawnFailed, fun _ => false⟩

/-- Environment where only `python` resolves, every interaction answers
`false`, generator spawns fail, the venv provisioning succeeds, and the
filesystem always succeeds. -/
def envPythonDecline : Env :=
  ⟨fun c => c == "python", fun _ => some false, fun _ _ => SpawnResult.spawnFailed,
   SpawnResult.ran true, fun _ => false⟩

/-- Environment where every executable resolves, interactions error out,
every generator subprocess exits with failure, and the filesystem always
succeeds. -/
def envToolsFail : Env :=
  ⟨fun _ => true, fun _ => none, fun _ _ => SpawnResult.ran false,
   SpawnResult.ran true, fun _ => false⟩

/-! Helper lemmas about the filesystem and prompt primitives. -/

/-- When no filesystem operation fails, `createDirs` succeeds and its trace
is exactly one `createDir` per requested path, in order. -/
theorem createDirs_ok (ff : String → Bool) (l : List String) (h : ∀ p, ff p = false) :
    createDirs ff l = (Except.ok (), l.map Effect.createDir) := by
  induction l with
  | nil => rfl
  | cons p rest ih => simp [createDirs, h, ih]

/-- When no filesystem operation fails, `writeFiles` succeeds and its trace
is exactly one `writeFile` per requested file, in order. -/
theorem writeFiles_ok (ff : String → Bool) (fl : List (String × String))
    (h : ∀ p, ff p = false) :
    writeFiles ff fl = (Except.ok (), fl.map fun f => Effect.writeFile f.1 f.2) := by
  induction fl with
  | nil => rfl
  | cons f rest ih => simp [writeFiles, h, ih]

/-- When no filesystem operation fails, materializing a scaffold succeeds
with exactly the scaffold's own trace. -/
theorem materializeFs_ok (ff : String → Bool) (sc : List String × List (String × String))
    (h : ∀ p, ff p = false) :
    materializeFs ff sc = (Except.ok (), materialize sc) := by
  simp [materializeFs, createDirs_ok ff sc.1 h, writeFiles_ok ff sc.2 h, materialize]

/-- `createDirs` never shows a prompt. -/
theorem interactions_createDirs (ff : String → Bool) (l : List String) :
    interactions (createDirs ff l).2 = [] := by
  induction l with
  | nil => rfl
  | cons p rest ih =>
    by_cases h : ff p = true
    · simp [createDirs, h, interactions]
    · simp only [Bool.not_eq_true] at h
      simp [createDirs, h, interactions] at ih ⊢
      exact ih

/-- `writeFiles` never shows a prompt. -/
theorem interactions_writeFiles (ff : String → Bool) (fl : List (String × String)) :
    interactions (writeFiles ff fl).2 = [] := by
  induction fl with
  | nil => rfl
  | cons f rest ih =>
    by_cases h : ff f.1 = true
    · simp [writeFiles, h, interactions]
    · simp only [Bool.not_eq_true] at h
      simp [writeFiles, h, interactions] at ih ⊢
      exact ih

/-- Materializing a scaffold never shows a prompt. -/
theorem interactions_materializeFs (ff : String → Bool)
    (sc : List String × List (String × String)) :
    interactions (materializeFs ff sc).2 = [] := by
  cases hc : (createDirs ff sc.1).1 with
  | error e =>
    simpa [materializeFs, hc] using interactions_createDirs ff sc.1
  | ok u =>
    have h1 := interactions_createDirs ff sc.1
    have h2 := interactions_writeFiles ff sc.2
    simp [materializeFs, hc, interactions, List.filterMap_append] at h1 h2 ⊢
    exact ⟨h1, h2⟩

/-- A prompt's trace contains no filesystem mutation. -/
theorem fsEffects_prompt (q : String) (np : Bool) (ans : Nat → Option Bool) (k : Nat) :
    fsEffects (prompt_yes_no q np ans k).2.1 = [] := by
  cases np <;> simp [prompt_yes_no, fsEffects]

/-- The scaffold trace consists entirely of filesystem mutations. -/
theorem fsEffects_materialize (sc : List String × List (String × String)) :
    fsEffects (materialize sc) = materialize sc := by
  obtain ⟨ds, fs⟩ := sc
  simp only [materialize, fsEffects, List.filter_append]
  congr 1
  · induction ds with
    | nil => rfl
    | cons d t ih => simp [List.filter, ih]
  · induction fs with
    | nil => rfl
    | cons f t ih => simpa [List.filter] using ih

/-- The prompt answers `true` as soon as non-interactive mode is set or the
interaction at the current index answers `true`. -/
theorem prompt_fst_true (q : String) (np : Bool) (ans : Nat → Option Bool) (k : Nat)
    (h : np = true ∨ (ans k).getD false = true) :
    (prompt_yes_no q np ans k).1 = true := by
  rcases h with h | h
  · simp [prompt_yes_no, h]
  · cases np <;> simp [prompt_yes_no, h]

/-- Equation lemmas keeping the trace extractors folded. -/
theorem fsEffects_nil : fsEffects [] = [] := rfl

/-- `fsEffects` distributes over list append. -/
theorem fsEffects_append (a b : List Effect) :
    fsEffects (a ++ b) = fsEffects a ++ fsEffects b := by
  simp [fsEffects]

/-- An interaction at the head of a trace is not a filesystem mutation. -/
theorem fsEffects_interact_cons (q : String) (es : List Effect) :
    fsEffects (Effect.interact q :: es) = fsEffects es := rfl

/-- A venv provisioning call at the head of a trace is not a filesystem
mutation performed by the program. -/
theorem fsEffects_venvInvocation_cons (p : String) (env : Env) (es : List Effect) :
    fsEffects (venvInvocation p env :: es) = fsEffects es := rfl

/-- With non-interactive mode the retry-prompt trace is empty whatever the
provisioning result. -/
theorem flaskRetryPrompt_true (env : Env) (k0 : Nat) :
    flaskRetryPrompt true env k0 = [] := by
  cases h : env.venvStatus with
  | ran b => cases b <;> simp [flaskRetryPrompt, h, prompt_yes_no]
  | spawnFailed => simp [flaskRetryPrompt, h, prompt_yes_no]

/-- The retry-prompt trace never contains a filesystem mutation. -/
theorem fsEffects_flaskRetryPrompt (np : Bool) (env : Env) (k0 : Nat) :
    fsEffects (flaskRetryPrompt np env k0) = [] := by
  cases h : env.venvStatus with
  | ran b => cases b <;> simp [flaskRetryPrompt, h, fsEffects_prompt, fsEffects_nil]
  | spawnFailed => simp [flaskRetryPrompt, h, fsEffects_prompt, fsEffects_nil]

/-- `interactions` of the empty trace. -/
theorem interactions_nil : interactions [] = [] := rfl

/-- `interactions` distributes over list append. -/
theorem interactions_append (a b : List Effect) :
    interactions (a ++ b) = interactions a ++ interactions b := by
  simp [interactions]

/-- A venv provisioning call is not an interaction. -/
theorem interactions_venvInvocation_cons (p : String) (env : Env) (es : List Effect) :
    interactions (venvInvocation p env :: es) = interactions es := rfl

/-- With non-interactive mode the retry-prompt trace shows no interaction. -/
theorem interactions_flaskRetryPrompt_true (env : Env) (k0 : Nat) :
    interactions (flaskRetryPrompt true env k0) = [] := by
  rw [flaskRetryPrompt_true]
  rfl

/-- With non-interactive mode and no filesystem failure, the Flask
scaffold phase succeeds and its trace is the scaffold followed by the venv
provisioning call; no retry prompt is ever shown. -/
theorem flaskScaffold_np_fsok (p : String) (env : Env) (e0 : List Effect) (k0 : Nat)
    (hfs : ∀ q, env.fsFails q = false) :
    flaskScaffold p true env e0 k0 =
      (Except.ok Outcome.generatedViaFallback,
       e0 ++ materialize (build_scaffold (Commands.flask p)) ++ [venvInvocation p env]) := by
  have hm := materializeFs_ok env.fsFails (build_scaffold (Commands.flask p)) hfs
  simp [flaskScaffold, hm, flaskRetryPrompt_true]

/-- The first component (the returned `Result`) of the Flask scaffold phase
depends only on the filesystem, not on the provisioning result or prompts. -/
theorem flaskScaffold_fst (p : String) (np : Bool) (env : Env) (e0 : List Effect) (k0 : Nat) :
    (flaskScaffold p np env e0 k0).1 =
      match (materializeFs env.fsFails (build_scaffold (Commands.flask p))).1 with
      | Except.error e => Except.error e
      | Except.ok _ => Except.ok Outcome.generatedViaFallback := by
  cases hm : (materializeFs env.fsFails (build_scaffold (Commands.flask p))).1 <;>
    simp [flaskScaffold, hm]

/-! Claim theorems. -/

/-- C10: for every question, the confirmation helper returns `true` with no
interaction when the non-interactive flag is set; when the interaction
itself fails (`none`), the answer defaults to `false` (declined). -/
theorem C10_prompt_contract (q : String) (ans : Nat → Option Bool) (k : Nat) :
    prompt_yes_no q true ans k = (true, [], k) ∧
    (ans k = none → prompt_yes_no q false ans k = (false, [Effect.interact q], k + 1)) := by
  refine ⟨rfl, fun h => ?_⟩
  simp [prompt_yes_no, h]

/-- Witness for C10 at a concrete question and a failing interaction. -/
theorem C10_witness :
    prompt_yes_no "Install?" true (fun _ => none) 0 = (true, [], 0) ∧
    prompt_yes_no "Install?" false (fun _ => none) 0 =
      (false, [Effect.interact "Install?"], 1) :=
  ⟨(C10_prompt_contract "Install?" (fun _ => none) 0).1,
   (C10_prompt_contract "Install?" (fun _ => none) 0).2 rfl⟩

/-- C3: for the sys-package kind, whenever `cargo` is not resolvable the run
returns the `missingDependency` error whose message carries the install
guidance, classified as `Aborted`, with exit code 1 and an empty effect
trace (in particular no directory is created), for every project name and
either setting of the non-interactive flag. -/
theorem C3_sys_package_missing_tool (project : String) (no_prompt : Bool) (env : Env)
    (h : env.toolExists "cargo" = false) :
    (runCommand (Commands.rust project) no_prompt env).1 =
      Except.error (GenError.missingDependency
        "Cargo was not found on your system. Please install Rust (and Cargo) from https://rustup.rs.") ∧
    specOutcome (runCommand (Commands.rust project) no_prompt env).1 = some Outcome.aborted ∧
    exitCode (runCommand (Commands.rust project) no_prompt env).1 = 1 ∧
    (runCommand (Commands.rust project) no_prompt env).2 = [] := by
  simp [runCommand, create_rust_project, command_exists, h, specOutcome, exitCode]

/-- Witness for C3: `cargo` absent in `envNoTools`, non-interactive set. -/
theorem C3_witness :
    (runCommand (Commands.rust "demo") true envNoTools).1 =
      Except.error (GenError.missingDependency
        "Cargo was not found on your system. Please install Rust (and Cargo) from https://rustup.rs.") ∧
    specOutcome (runCommand (Commands.rust "demo") true envNoTools).1 = some Outcome.aborted ∧
    exitCode (runCommand (Commands.rust "demo") true envNoTools).1 = 1 ∧
    (runCommand (Commands.rust "demo") true envNoTools).2 = [] :=
  C3_sys_package_missing_tool "demo" true envNoTools rfl

/-- C1 counterexample: kind php-framework, name "demo", tool absent,
interactive mode, user declines the fallback.  The outcome is the soft
abort, but the strategy returns `Ok`, so the process exit status is 0, not
1 as the claim states. -/
theorem C1_counterexample :
    (create_symfony_project "demo" false envNoTools).1 = Except.ok Outcome.aborted ∧
    exitCode (create_symfony_project "demo" false envNoTools).1 = 0 ∧
    ¬ exitCode (create_symfony_project "demo" false envNoTools).1 = 1 := by
  refine ⟨rfl, rfl, ?_⟩
  intro h
  have h0 : exitCode (create_symfony_project "demo" false envNoTools).1 = 0 := rfl
  rw [h0] at h
  exact Nat.zero_ne_one h

/-- C1 amended: for both fallback-capable kinds, when the probed tool is
absent and the user declines the fallback confirmation, the outcome is
`Aborted` but the strategy returns `Ok`, so the process exit status is 0
(a soft abort with printed guidance, not an error exit). -/
theorem C1_amended_decline_soft_abort (project : String) (env : Env)
    (hs : env.toolExists "symfony" = false)
    (hd : env.toolExists "django-admin" = false)
    (ha : (env.interactAnswers 0).getD false = false) :
    (create_symfony_project project false env).1 = Except.ok Outcome.aborted ∧
    exitCode (create_symfony_project project false env).1 = 0 ∧
    (create_django_project project false env).1 = Except.ok Outcome.aborted ∧
    exitCode (create_django_project project false env).1 = 0 := by
  simp [create_symfony_project, create_django_project, command_exists, hs, hd,
    prompt_yes_no, ha, exitCode]

/-- Witness for the amended C1 at name "demo" in `envNoTools`. -/
theorem C1_witness :
    (create_symfony_project "demo" false envNoTools).1 = Except.ok Outcome.aborted ∧
    exitCode (create_symfony_project "demo" false envNoTools).1 = 0 ∧
    (create_django_project "demo" false envNoTools).1 = Except.ok Outcome.aborted ∧
    exitCode (create_django_project "demo" false envNoTools).1 = 0 :=
  C1_amended_decline_soft_abort "demo" envNoTools rfl rfl rfl

/-- C2 counterexample: kind py-full, name "demo", `django-admin` absent,
user declines, `python` resolvable, provisioning succeeds.  On this abort
path the program performs no directory creation or file write itself, yet
it still spawns `python -m venv demo/venv`, which creates the directory
`demo/venv` under the project name — so a filesystem mutation under the
project name does occur. -/
theorem C2_counterexample :
    (create_django_project "demo" false envPythonDecline).1 = Except.ok Outcome.aborted ∧
    fsEffects (create_django_project "demo" false envPythonDecline).2 = [] ∧
    subprocessDirs (create_django_project "demo" false envPythonDecline).2 = ["demo/venv"] := by
  refine ⟨rfl, rfl, rfl⟩

/-- C2 amended: on the abort path the strategy itself performs no directory
creation and no file write; the php-framework strategy's whole trace is the
single confirmation, while the py-full strategy additionally still spawns
the venv provisioning subprocess (which targets `<name>/venv` and creates it
when it succeeds). -/
theorem C2_amended_abort_frame (project : String) (env : Env)
    (hs : env.toolExists "symfony" = false)
    (hd : env.toolExists "django-admin" = false)
    (ha : (env.interactAnswers 0).getD false = false) :
    (create_symfony_project project false env).2 =
      [Effect.interact "Symfony CLI is missing. Create directory structure manually as fallback?"] ∧
    (create_django_project project false env).2 =
      [Effect.interact "django-admin is missing. Create basic scaffold manually as fallback?",
       venvInvocation project env] := by
  simp [create_symfony_project, create_django_project, command_exists, hs, hd,
    prompt_yes_no, ha]

/-- Witness for the amended C2 at name "demo" in `envPythonDecline`. -/
theorem C2_witness :
    (create_symfony_project "demo" false envPythonDecline).2 =
      [Effect.interact "Symfony CLI is missing. Create directory structure manually as fallback?"] ∧
    (create_django_project "demo" false envPythonDecline).2 =
      [Effect.interact "django-admin is missing. Create basic scaffold manually as fallback?",
       venvInvocation "demo" envPythonDecline] :=
  C2_amended_abort_frame "demo" envPythonDecline rfl rfl rfl

/-- C8 counterexample: kind py-micro, name "demo", interactive mode, neither
`python` nor `python3` resolvable, interaction answers `false`.  The
strategy probes the interpreter, shows a prompt, and aborts with an error
before creating anything — refuting "no probe, no decide phase, never
aborts before building". -/
theorem C8_counterexample :
    (create_flask_project "demo" false envNoTools).1 =
      Except.error (GenError.missingDependency "Python is required for Flask projects.") ∧
    (create_flask_project "demo" false envNoTools).2 =
      [Effect.interact "Abort and install Python first?"] ∧
    exitCode (create_flask_project "demo" false envNoTools).1 = 1 := by
  refine ⟨rfl, rfl, rfl⟩

/-- C8 amended: the py-micro strategy performs no generator-tool probe, but
it does probe the Python interpreter.  When neither `python` nor `python3`
resolves, it prompts and aborts with `missingDependency` before building
anything if the confirmation yields `false`; in every other situation
(interpreter present, non-interactive flag set, or confirmation answering
`true`) it proceeds directly to the fallback scaffold and, absent
filesystem failures, returns `GeneratedViaFallback`. -/
theorem C8_amended_flask_probe (project : String) (no_prompt : Bool) (env : Env) :
    ((env.toolExists "python" = false ∧ env.toolExists "python3" = false ∧
      no_prompt = false ∧ (env.interactAnswers 0).getD false = false) →
      (create_flask_project project no_prompt env).1 =
        Except.error (GenError.missingDependency "Python is required for Flask projects.") ∧
      (create_flask_project project no_prompt env).2 =
        [Effect.interact "Abort and install Python first?"]) ∧
    ((env.toolExists "python" = true ∨ env.toolExists "python3" = true ∨
      no_prompt = true ∨ (env.interactAnswers 0).getD false = true) →
      (∀ q, env.fsFails q = false) →
      (create_flask_project project no_prompt env).1 = Except.ok Outcome.generatedViaFallback) := by
  constructor
  · rintro ⟨hp, hp3, hnp, ha⟩
    subst hnp
    simp [create_flask_project, command_exists, hp, hp3, prompt_yes_no, ha]
  · intro hcase hfs
    rcases hcase with h | h | h | h
    · simp [create_flask_project, command_exists, h,
        flaskScaffold_fst, materializeFs_ok env.fsFails _ hfs]
    · simp [create_flask_project, command_exists, h,
        flaskScaffold_fst, materializeFs_ok env.fsFails _ hfs]
    · subst h
      by_cases hb : (!command_exists env "python" && !command_exists env "python3") = true
      · simp [create_flask_project, hb, prompt_yes_no,
          flaskScaffold_fst, materializeFs_ok env.fsFails _ hfs]
      · simp [create_flask_project, hb, flaskScaffold_fst,
          materializeFs_ok env.fsFails _ hfs]
    · have hpr : (prompt_yes_no "Abort and install Python first?" no_prompt
          env.interactAnswers 0).1 = true := prompt_fst_true _ _ _ _ (Or.inr h)
      by_cases hb : (!command_exists env "python" && !command_exists env "python3") = true
      · simp [create_flask_project, hb, hpr, flaskScaffold_fst,
          materializeFs_ok env.fsFails _ hfs]
      · simp [create_flask_project, hb, flaskScaffold_fst,
          materializeFs_ok env.fsFails _ hfs]

/-- Witness for the amended C8: the abort case and the non-interactive case
at name "demo" in `envNoTools`. -/
theorem C8_witness :
    (create_flask_project "demo" false envNoTools).1 =
      Except.error (GenError.missingDependency "Python is required for Flask projects.") ∧
    (create_flask_project "demo" true envNoTools).1 = Except.ok Outcome.generatedViaFallback :=
  ⟨((C8_amended_flask_probe "demo" false envNoTools).1 ⟨rfl, rfl, rfl, rfl⟩).1,
   (C8_amended_flask_probe "demo" true envNoTools).2
     (Or.inr (Or.inr (Or.inl rfl))) (fun _ => rfl)⟩

/-- C4: for every fallback-capable kind (php-framework and py-full, and
also the pure-fallback py-micro kind), when the probed tool is absent and
the non-interactive flag is set, the strategy shows no confirmation
interaction at all, and — absent filesystem failures — its result is
`GeneratedViaFallback`. -/
theorem C4_noninteractive_fallback (project : String) (env : Env)
    (hs : env.toolExists "symfony" = false)
    (hd : env.toolExists "django-admin" = false)
    (hp : env.toolExists "python" = false)
    (hp3 : env.toolExists "python3" = false) :
    interactions (create_symfony_project project true env).2 = [] ∧
    interactions (create_django_project project true env).2 = [] ∧
    interactions (create_flask_project project true env).2 = [] ∧
    ((∀ q, env.fsFails q = false) →
      (create_symfony_project project true env).1 = Except.ok Outcome.generatedViaFallback ∧
      (create_django_project project true env).1 = Except.ok Outcome.generatedViaFallback ∧
      (create_flask_project project true env).1 = Except.ok Outcome.generatedViaFallback) := by
  refine ⟨?_, ?_, ?_, ?_⟩
  · cases hm : (materializeFs env.fsFails (build_scaffold (Commands.symfony project))).1 <;>
      simp [create_symfony_project, command_exists, hs, prompt_yes_no, hm,
        interactions_materializeFs]
  · cases hm : (materializeFs env.fsFails (build_scaffold (Commands.django project))).1 <;>
      simp [create_django_project, command_exists, hd, prompt_yes_no, hm,
        interactions_append, interactions_materializeFs, interactions_venvInvocation_cons,
        interactions_nil]
  · cases hm : (materializeFs env.fsFails (build_scaffold (Commands.flask project))).1 <;>
      simp [create_flask_project, command_exists, hp, hp3, prompt_yes_no, flaskScaffold, hm,
        interactions_append, interactions_materializeFs, interactions_venvInvocation_cons,
        interactions_flaskRetryPrompt_true, interactions_nil]
  · intro hfs
    refine ⟨?_, ?_, ?_⟩
    · simp [create_symfony_project, command_exists, hs, prompt_yes_no,
        materializeFs_ok env.fsFails _ hfs]
    · simp [create_django_project, command_exists, hd, prompt_yes_no,
        materializeFs_ok env.fsFails _ hfs]
    · simp [create_flask_project, command_exists, hp, hp3, prompt_yes_no,
        flaskScaffold_np_fsok project env _ _ hfs]

/-- Witness for C4 at name "demo" in `envNoTools`. -/
theorem C4_witness :
    interactions (create_symfony_project "demo" true envNoTools).2 = [] ∧
    interactions (create_django_project "demo" true envNoTools).2 = [] ∧
    interactions (create_flask_project "demo" true envNoTools).2 = [] ∧
    ((create_symfony_project "demo" true envNoTools).1 = Except.ok Outcome.generatedViaFallback ∧
     (create_django_project "demo" true envNoTools).1 = Except.ok Outcome.generatedViaFallback ∧
     (create_flask_project "demo" true envNoTools).1 = Except.ok Outcome.generatedViaFallback) := by
  have h := C4_noninteractive_fallback "demo" envNoTools rfl rfl rfl rfl
  exact ⟨h.1, h.2.1, h.2.2.1, h.2.2.2 (fun _ => rfl)⟩

/-- C5: for every kind with a tool path, when the tool is resolvable and its
subprocess exits non-zero, the strategy returns the hard
`ToolExecutionError`, the process exits 1, and no fallback scaffold is
attempted (the trace contains no filesystem mutation at all). -/
theorem C5_tool_failure_terminal (project : String) (no_prompt : Bool) (env : Env)
    (hs : env.toolExists "symfony" = true)
    (hsr : env.runStatus "symfony" ["new", project] = SpawnResult.ran false)
    (hd : env.toolExists "django-admin" = true)
    (hdr : env.runStatus "django-admin" ["startproject", project, project] =
      SpawnResult.ran false)
    (hc : env.toolExists "cargo" = true)
    (hcr : env.runStatus "cargo" ["new", project] = SpawnResult.ran false) :
    ((runCommand (Commands.symfony project) no_prompt env).1 =
      Except.error (GenError.toolExecutionError
        "Failed to create Symfony project with Symfony CLI.") ∧
     exitCode (runCommand (Commands.symfony project) no_prompt env).1 = 1 ∧
     fsEffects (runCommand (Commands.symfony project) no_prompt env).2 = []) ∧
    ((runCommand (Commands.django project) no_prompt env).1 =
      Except.error (GenError.toolExecutionError
        "Failed to create Django project with django-admin.") ∧
     exitCode (runCommand (Commands.django project) no_prompt env).1 = 1 ∧
     fsEffects (runCommand (Commands.django project) no_prompt env).2 = []) ∧
    ((runCommand (Commands.rust project) no_prompt env).1 =
      Except.error (GenError.toolExecutionError "Failed to create Rust project using Cargo.") ∧
     exitCode (runCommand (Commands.rust project) no_prompt env).1 = 1 ∧
     fsEffects (runCommand (Commands.rust project) no_prompt env).2 = []) := by
  refine ⟨⟨?_, ?_, ?_⟩, ⟨?_, ?_, ?_⟩, ⟨?_, ?_, ?_⟩⟩ <;>
    simp [runCommand, create_symfony_project, create_django_project, create_rust_project,
      command_exists, hs, hsr, hd, hdr, hc, hcr, exitCode, fsEffects]

/-- Witness for C5 at name "demo" in `envToolsFail`. -/
theorem C5_witness :
    ((runCommand (Commands.symfony "demo") false envToolsFail).1 =
      Except.error (GenError.toolExecutionError
        "Failed to create Symfony project with Symfony CLI.") ∧
     exitCode (runCommand (Commands.symfony "demo") false envToolsFail).1 = 1 ∧
     fsEffects (runCommand (Commands.symfony "demo") false envToolsFail).2 = []) ∧
    ((runCommand (Commands.django "demo") false envToolsFail).1 =
      Except.error (GenError.toolExecutionError
        "Failed to create Django project with django-admin.") ∧
     exitCode (runCommand (Commands.django "demo") false envToolsFail).1 = 1 ∧
     fsEffects (runCommand (Commands.django "demo") false envToolsFail).2 = []) ∧
    ((runCommand (Commands.rust "demo") false envToolsFail).1 =
      Except.error (GenError.toolExecutionError "Failed to create Rust project using Cargo.") ∧
     exitCode (runCommand (Commands.rust "demo") false envToolsFail).1 = 1 ∧
     fsEffects (runCommand (Commands.rust "demo") false envToolsFail).2 = []) :=
  C5_tool_failure_terminal "demo" false envToolsFail rfl rfl rfl rfl rfl rfl

/-- C6: kind py-micro, name "demo", non-interactive flag set, no filesystem
failure: the program creates exactly the directories demo/app, demo/venv,
demo/static, demo/templates (in this order), writes exactly the file
demo/app/app.py whose content contains the minimal route handler, and the
result is `GeneratedViaFallback` with exit code 0 — for every interpreter
availability and every provisioning result, i.e. even when the environment
setup fails. -/
theorem C6_flask_demo_scenario (env : Env) (hfs : ∀ q, env.fsFails q = false) :
    dirsCreated (create_flask_project "demo" true env).2 =
      ["demo/app", "demo/venv", "demo/static", "demo/templates"] ∧
    filesWritten (create_flask_project "demo" true env).2 =
      [("demo/app/app.py", flaskAppContent)] ∧
    hasSub flaskAppContent "@app.route(\x27/\x27)" ∧
    hasSub flaskAppContent "def hello():" ∧
    (create_flask_project "demo" true env).1 = Except.ok Outcome.generatedViaFallback ∧
    exitCode (create_flask_project "demo" true env).1 = 0 := by
  have hsc := flaskScaffold_np_fsok "demo" env [] 0 hfs
  have hsc1 := flaskScaffold_np_fsok "demo" env [] 1 hfs
  refine ⟨?_, ?_, ?_, ?_, ?_, ?_⟩
  · by_cases hb : (!command_exists env "python" && !command_exists env "python3") = true
    · simp [create_flask_project, hb, prompt_yes_no, hsc, dirsCreated, materialize,
        build_scaffold, venvInvocation, List.filterMap_append]
    · simp [create_flask_project, hb, hsc, dirsCreated, materialize,
        build_scaffold, venvInvocation, List.filterMap_append]
  · by_cases hb : (!command_exists env "python" && !command_exists env "python3") = true
    · simp [create_flask_project, hb, prompt_yes_no, hsc, filesWritten, materialize,
        build_scaffold, venvInvocation, List.filterMap_append]
    · simp [create_flask_project, hb, hsc, filesWritten, materialize,
        build_scaffold, venvInvocation, List.filterMap_append]
  · exact ⟨"from flask import Flask\n\napp = Flask(__name__)\n\n",
      "\ndef hello():\n    return \"Here we go again!\"\n\nif __name__ == \x27__main__\x27:\n    app.run(debug=True)\n",
      by rfl⟩
  · exact ⟨"from flask import Flask\n\napp = Flask(__name__)\n\n@app.route(\x27/\x27)\n",
      "\n    return \"Here we go again!\"\n\nif __name__ == \x27__main__\x27:\n    app.run(debug=True)\n",
      by rfl⟩
  · by_cases hb : (!command_exists env "python" && !command_exists env "python3") = true
    · simp [create_flask_project, hb, prompt_yes_no, hsc]
    · simp [create_flask_project, hb, hsc]
  · by_cases hb : (!command_exists env "python" && !command_exists env "python3") = true
    · simp [create_flask_project, hb, prompt_yes_no, hsc, exitCode]
    · simp [create_flask_project, hb, hsc, exitCode]

/-- Witness for C6 in `envNoTools`, where the interpreter is absent and the
provisioning spawn fails — the environment-setup failure case. -/
theorem C6_witness :
    dirsCreated (create_flask_project "demo" true envNoTools).2 =
      ["demo/app", "demo/venv", "demo/static", "demo/templates"] ∧
    filesWritten (create_flask_project "demo" true envNoTools).2 =
      [("demo/app/app.py", flaskAppContent)] ∧
    hasSub flaskAppContent "@app.route(\x27/\x27)" ∧
    hasSub flaskAppContent "def hello():" ∧
    (create_flask_project "demo" true envNoTools).1 = Except.ok Outcome.generatedViaFallback ∧
    exitCode (create_flask_project "demo" true envNoTools).1 = 0 :=
  C6_flask_demo_scenario envNoTools (fun _ => rfl)

/-- On the fallback path with no filesystem failure, the filesystem trace of
a run is exactly the materialization of the pure scaffold of its kind. -/
theorem fallback_fsEffects (cmd : Commands) (np : Bool) (env : Env)
    (hc : fallbackCond cmd np env) (hfs : ∀ q, env.fsFails q = false) :
    fsEffects (runCommand cmd np env).2 = materialize (build_scaffold cmd) := by
  cases cmd with
  | symfony project =>
    obtain ⟨hs, hp⟩ := hc
    have h1 := prompt_fst_true
      "Symfony CLI is missing. Create directory structure manually as fallback?"
      np env.interactAnswers 0 hp
    simp [runCommand, create_symfony_project, command_exists, hs, h1,
      materializeFs_ok env.fsFails _ hfs, fsEffects_append, fsEffects_prompt,
      fsEffects_materialize]
  | flask project =>
    have hm := materializeFs_ok env.fsFails (build_scaffold (Commands.flask project)) hfs
    by_cases hb : (!command_exists env "python" && !command_exists env "python3") = true
    · have h1 : (prompt_yes_no "Abort and install Python first?" np
          env.interactAnswers 0).1 = true := by
        rcases hc with h | h | h | h
        · exact absurd hb (by simp [command_exists, h])
        · exact absurd hb (by simp [command_exists, h])
        · exact prompt_fst_true _ _ _ _ (Or.inl h)
        · exact prompt_fst_true _ _ _ _ (Or.inr h)
      simp [runCommand, create_flask_project, hb, h1, flaskScaffold, hm,
        fsEffects_append, fsEffects_prompt, fsEffects_materialize,
        fsEffects_venvInvocation_cons, fsEffects_flaskRetryPrompt, fsEffects_nil]
    · simp [runCommand, create_flask_project, hb, flaskScaffold, hm,
        fsEffects_append, fsEffects_materialize, fsEffects_venvInvocation_cons,
        fsEffects_flaskRetryPrompt, fsEffects_nil]
  | django project =>
    obtain ⟨hd, hp⟩ := hc
    have h1 := prompt_fst_true
      "django-admin is missing. Create basic scaffold manually as fallback?"
      np env.interactAnswers 0 hp
    simp [runCommand, create_django_project, command_exists, hd, h1,
      materializeFs_ok env.fsFails _ hfs, fsEffects_append, fsEffects_prompt,
      fsEffects_materialize, fsEffects_venvInvocation_cons, fsEffects_nil]
  | rust project =>
    have hcargo : env.toolExists "cargo" = false := hc
    simp [runCommand, create_rust_project, command_exists, hcargo,
      materialize, build_scaffold, fsEffects_nil]

/-- C9: the fallback scaffold construction is pure and deterministic — any
two runs that take the fallback path for the same kind and project name,
in possibly different environments and flag settings (with no filesystem
failure), perform byte-identical filesystem traces, both equal to the
materialization of the pure `build_scaffold` of that kind and name. -/
theorem C9_build_scaffold_deterministic (cmd : Commands) (np1 np2 : Bool)
    (env1 env2 : Env)
    (h1 : fallbackCond cmd np1 env1) (h2 : fallbackCond cmd np2 env2)
    (hf1 : ∀ q, env1.fsFails q = false) (hf2 : ∀ q, env2.fsFails q = false) :
    fsEffects (runCommand cmd np1 env1).2 = materialize (build_scaffold cmd) ∧
    fsEffects (runCommand cmd np2 env2).2 = materialize (build_scaffold cmd) ∧
    fsEffects (runCommand cmd np1 env1).2 = fsEffects (runCommand cmd np2 env2).2 := by
  have e1 := fallback_fsEffects cmd np1 env1 h1 hf1
  have e2 := fallback_fsEffects cmd np2 env2 h2 hf2
  exact ⟨e1, e2, e1.trans e2.symm⟩

/-- Witness for C9: two different environments (non-interactive flag set in
one, interpreter present in the other) produce the same Flask scaffold
trace for name "demo". -/
theorem C9_witness :
    fsEffects (runCommand (Commands.flask "demo") true envNoTools).2 =
      materialize (build_scaffold (Commands.flask "demo")) ∧
    fsEffects (runCommand (Commands.flask "demo") false envPythonDecline).2 =
      materialize (build_scaffold (Commands.flask "demo")) ∧
    fsEffects (runCommand (Commands.flask "demo") true envNoTools).2 =
      fsEffects (runCommand (Commands.flask "demo") false envPythonDecline).2 :=
  C9_build_scaffold_deterministic (Commands.flask "demo") true false
    envNoTools envPythonDecline (by simp [fallbackCond])
    (by simp [fallbackCond, envPythonDecline]) (fun _ => rfl) (fun _ => rfl)

/-- C7: for both Python kinds and every project name, flag setting and
environment, the strategy's returned result does not depend on the outcome
of the isolated-environment provisioning call (interpreter spawn failure or
non-zero exit included): two environments differing only in the
provisioning result yield the same final result. -/
theorem C7_env_setup_never_changes_outcome (project : String) (no_prompt : Bool)
    (te : String → Bool) (ia : Nat → Option Bool)
    (rs : String → List String → SpawnResult) (ff : String → Bool)
    (x y : SpawnResult) :
    (create_flask_project project no_prompt (Env.mk te ia rs x ff)).1 =
      (create_flask_project project no_prompt (Env.mk te ia rs y ff)).1 ∧
    (create_django_project project no_prompt (Env.mk te ia rs x ff)).1 =
      (create_django_project project no_prompt (Env.mk te ia rs y ff)).1 := by
  constructor
  · by_cases hb : (!te "python" && !te "python3") = true
    · by_cases hpr : (prompt_yes_no "Abort and install Python first?" no_prompt ia 0).1 = true
      · simp [create_flask_project, command_exists, hb, hpr, flaskScaffold_fst]
      · simp only [Bool.not_eq_true] at hpr
        simp [create_flask_project, command_exists, hb, hpr]
    · simp [create_flask_project, command_exists, hb, flaskScaffold_fst]
  · by_cases hda : te "django-admin" = true
    · cases hst : rs "django-admin" ["startproject", project, project] with
      | ran b => cases b <;> simp [create_django_project, command_exists, hda, hst]
      | spawnFailed => simp [create_django_project, command_exists, hda, hst]
    · simp only [Bool.not_eq_true] at hda
      by_cases hpr : (prompt_yes_no
          "django-admin is missing. Create basic scaffold manually as fallback?"
          no_prompt ia 0).1 = true
      · cases hm : (materializeFs ff (build_scaffold (Commands.django project))).1 <;>
          simp [create_django_project, command_exists, hda, hpr, hm]
      · simp only [Bool.not_eq_true] at hpr
        simp [create_django_project, command_exists, hda, hpr]

end PG
